import Mathlib

/-!
Shallow embedding of `src/main.py`, a single-file FastAPI tutorial
application. Python dictionaries are embedded as insertion-ordered
association lists, JSON-serializable response values as the inductive
`Json`, and Python `Optional` values as `Option`. Python `float` fields
carry no arithmetic in this program, so they are embedded as `Rat`.
Framework behaviour (pydantic validation, route dispatch) that is not
part of the repository is modelled separately; each such definition says
so in its doc comment.
-/

/-- JSON-serializable values, the type of every handler response. -/
inductive Json where
  | null : Json
  | str : String → Json
  | int : Int → Json
  | num : Rat → Json
  | arr : List Json → Json
  | obj : List (String × Json) → Json

/-- Python `dict.update` with a single key: replace the value when the key
is present, otherwise append the pair at the end (insertion order). -/
def dictUpdate (d : List (String × Json)) (k : String) (v : Json) :
    List (String × Json) :=
  if d.any (fun p => p.1 = k) then
    d.map (fun p => if p.1 = k then (k, v) else p)
  else
    d ++ [(k, v)]

/-- Key lookup in an embedded dictionary. -/
def lookupPairs : List (String × Json) → String → Option Json
  | [], _ => none
  | (k, v) :: rest, key => if k = key then some v else lookupPairs rest key

/-- Key lookup in a `Json` value; `none` on non-objects. -/
def jsonLookup (j : Json) (key : String) : Option Json :=
  match j with
  | Json.obj fields => lookupPairs fields key
  | _ => none

/-- Serialization of an optional string, as FastAPI serializes a handler
return value of `Union[str, None]`: `None` becomes JSON null. -/
def optStrJson : Option String → Json
  | none => Json.null
  | some s => Json.str s

/-- Python truthiness of an `Optional[str]`: `None` and the empty string
are falsy, every other string is truthy. -/
def truthyStr : Option String → Bool
  | none => false
  | some s => decide (s ≠ "")

/-- The `if q: results.update(...)` pattern shared verbatim by the query
handlers in `src/main.py`: add the parameter under `key` exactly when the
optional string is truthy. -/
def updateIfTruthy (results : List (String × Json)) (key : String)
    (q : Option String) : List (String × Json) :=
  match q with
  | none => results
  | some s => if s = "" then results else dictUpdate results key (Json.str s)

/-- The canned sample list used by the `/items*` handlers:
`[\x7b"item_id": "Foo"\x7d, \x7b"item_id": "Bar"\x7d]`. -/
def sampleItems : Json :=
  Json.arr [Json.obj [("item_id", Json.str "Foo")],
            Json.obj [("item_id", Json.str "Bar")]]

/-- The canned sample list used by the `/readers*` handlers. -/
def sampleReaders : Json :=
  Json.arr [Json.obj [("reader_id", Json.str "Foo")],
            Json.obj [("reader_id", Json.str "Bar")]]

/-- The canned sample list used by the `/posts/` handler. -/
def samplePosts : Json :=
  Json.arr [Json.obj [("post_id", Json.str "Foo")],
            Json.obj [("post_id", Json.str "Bar")]]

/-- Handler `read_items`, `src/main.py` lines 9-14 (GET `/items/`,
first registration): optional `q`, canned items, conditional update. -/
def read_items (q : Option String) : Json :=
  Json.obj (updateIfTruthy [("items", sampleItems)] "q" q)

/-- Handler `read_items2`, lines 17-22 (GET `/items2/`): required `q`. -/
def read_items2 (q : String) : Json :=
  Json.obj (updateIfTruthy [("items", sampleItems)] "q" (some q))

/-- Handler `read_items3`, lines 25-30 (GET `/items3/`): required `q`
via Ellipsis default. -/
def read_items3 (q : String) : Json :=
  Json.obj (updateIfTruthy [("items", sampleItems)] "q" (some q))

/-- The second `read_items` definition, lines 33-38 (GET `/items/`,
duplicate registration): required `q` via pydantic `Required`. -/
def read_items_v2 (q : String) : Json :=
  Json.obj (updateIfTruthy [("items", sampleItems)] "q" (some q))

/-- The third `read_items` definition, lines 44-47 (GET `/items_list/`):
builds `\x7b"q": q\x7d` unconditionally and returns it. -/
def read_items_list (q : Option (List String)) : Json :=
  Json.obj [("q", match q with
                  | none => Json.null
                  | some xs => Json.arr (xs.map Json.str))]

/-- Handler `read_readers`, lines 52-61 (GET `/readers/`). -/
def read_readers (q : Option String) : Json :=
  Json.obj (updateIfTruthy [("readers", sampleReaders)] "q" q)

/-- Handler `read_readers_alias`, lines 62-72 (GET `/readers_alias/`). -/
def read_readers_alias (q : Option String) : Json :=
  Json.obj (updateIfTruthy [("readers", sampleReaders)] "q" q)

/-- Handler `read_posts`, lines 77-93 (GET `/posts/`). -/
def read_posts (q : Option String) : Json :=
  Json.obj (updateIfTruthy [("posts", samplePosts)] "q" q)

set_option linter.unusedVariables false in
/-- Handler `read_item`, lines 131-137 (GET `/items/\x7bitem_id\x7d`,
first registration). It builds `results` exactly as the other handlers
do, then `return q` serializes the parameter `q` itself, leaving the
`results` dictionary unused: the final statement of the source is
`return q`, not `return results`. -/
def read_item (item_id : Int) (q : Option String) : Json :=
  let results := updateIfTruthy [("item_id", Json.int item_id)] "q" q
  optStrJson q

/-- The fourth `read_items` definition, lines 149-154
(GET `/items/\x7bitem_id\x7d`, duplicate registration). -/
def read_items_path (item_id : Int) (q : String) : Json :=
  Json.obj (updateIfTruthy [("item_id", Json.int item_id)] "q" (some q))

/-- Handler `read_items1`, lines 165-170 (GET `/items1/\x7bitem_id\x7d`)
with the numeric path constraint `gt=1` declared at the route. -/
def read_items1 (item_id : Int) (q : String) : Json :=
  Json.obj (updateIfTruthy [("item_id", Json.int item_id)] "q" (some q))

/-- Pydantic model `Item`, lines 176-180: `name` and `price` required,
`description` and `tax` optional with default `None`. -/
structure Item where
  name : String
  description : Option String
  price : Rat
  tax : Option Rat
deriving DecidableEq

/-- Pydantic model `User`, lines 197-199: `username` required,
`full_name` optional with default `None`. -/
structure User where
  username : String
  full_name : Option String
deriving DecidableEq

/-- Serialization of an optional number. -/
def optRatJson : Option Rat → Json
  | none => Json.null
  | some x => Json.num x

/-- Serialization of an `Item` into a JSON object, field by field in
declaration order, as FastAPI serializes a pydantic model placed in a
response dictionary. -/
def itemJson (it : Item) : Json :=
  Json.obj [("name", Json.str it.name),
            ("description", optStrJson it.description),
            ("price", Json.num it.price),
            ("tax", optRatJson it.tax)]

/-- Serialization of a `User` into a JSON object. -/
def userJson (u : User) : Json :=
  Json.obj [("username", Json.str u.username),
            ("full_name", optStrJson u.full_name)]

/-- Modelled from the spec: pydantic model construction from request
data, which is framework code not present in the repository. A required
field (one declared without a default) must be supplied for construction
to succeed; an optional field defaults to absent (`None`). This is
`Item` construction: `name` and `price` required, `description` and
`tax` optional. -/
def Item.construct (name : Option String) (description : Option String)
    (price : Option Rat) (tax : Option Rat) : Option Item :=
  match name, price with
  | some n, some p => some ⟨n, description, p, tax⟩
  | _, _ => none

/-- Modelled from the spec: `User` construction, `username` required,
`full_name` optional (see `Item.construct`). -/
def User.construct (username : Option String) (full_name : Option String) :
    Option User :=
  match username with
  | some n => some ⟨n, full_name⟩
  | none => none

/-- Handler `update_item`, lines 183-195 (PUT `/items/\x7bitem_id\x7d`,
first registration): optional `q` and optional body `item`; a pydantic
model instance is always truthy in Python, so `if item:` holds exactly
when `item` is not `None`. -/
def update_item (item_id : Int) (q : Option String) (item : Option Item) :
    Json :=
  let results := [("item_id", Json.int item_id)]
  let results := updateIfTruthy results "q" q
  let results := match item with
                 | none => results
                 | some it => dictUpdate results "item" (itemJson it)
  Json.obj results

/-- The second `update_item` definition, lines 202-205
(PUT `/items/\x7bitem_id\x7d`, duplicate registration). -/
def update_item_v2 (item_id : Int) (item : Item) (user : User) : Json :=
  Json.obj [("item_id", Json.int item_id), ("item", itemJson item),
            ("user", userJson user)]

/-- Handler `singular_value`, lines 216-224 (GET
`/singular/\x7bitem_id\x7d`): body fields `item`, `user` and singular
body value `foo`. -/
def singular_value (item_id : Int) (item : Item) (user : User) (foo : Int) :
    Json :=
  Json.obj [("item_id", Json.int item_id), ("item", itemJson item),
            ("user", userJson user), ("foo", Json.int foo)]

/-- String constraints declared on a query parameter, the configuration
values passed to `Query(...)` in the source. -/
structure StrConstraints where
  min_length : Option Nat
  max_length : Option Nat
  regex : Option String

/-- Modelled from the spec: matching of the framework regex constraint,
which is framework code not present in the repository. The only pattern
appearing in the repository is the anchored literal `^fixedquery$`, and
a string matches an anchored literal pattern exactly when the pattern is
the caret, the characters of the string itself, and the dollar sign. -/
def regexFullMatch (pat s : String) : Bool :=
  decide (pat.data = '^' :: (s.data ++ ['$']))

/-- Modelled from the spec: framework string validation from the
declared constraints (`min_length`, `max_length`, `regex`), framework
code not present in the repository; a violating value is rejected with
a 422 response before any handler code runs. -/
def validateStr (c : StrConstraints) (s : String) : Bool :=
  (match c.min_length with
   | some m => decide (m ≤ s.length)
   | none => true) &&
  (match c.max_length with
   | some m => decide (s.length ≤ m)
   | none => true) &&
  (match c.regex with
   | some pat => regexFullMatch pat s
   | none => true)

/-- Modelled from the spec: framework validation of an optional string
query parameter. An absent optional parameter passes (its default is
used); a supplied value must satisfy the declared constraints or the
request is rejected with a 422 response. -/
def validateOptQuery (c : StrConstraints) (q : Option String) :
    Except Nat (Option String) :=
  match q with
  | none => Except.ok none
  | some s => if validateStr c s then Except.ok (some s) else Except.error 422

/-- Numeric constraints declared on a path parameter, the configuration
values passed to `Path(...)` in the source. -/
structure NumConstraints where
  gt : Option Int
  ge : Option Int
  lt : Option Int
  le : Option Int

/-- Modelled from the spec: framework numeric validation from the
declared comparisons, framework code not present in the repository. -/
def validateNum (c : NumConstraints) (v : Int) : Bool :=
  (match c.gt with | some b => decide (b < v) | none => true) &&
  (match c.ge with | some b => decide (b ≤ v) | none => true) &&
  (match c.lt with | some b => decide (v < b) | none => true) &&
  (match c.le with | some b => decide (v ≤ b) | none => true)

/-- Constraints declared on `q` at GET `/items/` (line 10):
`min_length=3, max_length=50, regex="^fixedquery$"`. -/
def itemsQC : StrConstraints := ⟨some 3, some 50, some "^fixedquery$"⟩

/-- Constraints declared on `q` at GET `/items2/` (line 18):
`min_length=3`. -/
def items2QC : StrConstraints := ⟨some 3, none, none⟩

/-- Constraints declared on `q` at GET `/readers/` (line 54):
`min_length=3`. -/
def readersQC : StrConstraints := ⟨some 3, none, none⟩

/-- Constraints declared on `q` at GET `/posts/` (lines 79-88):
`min_length=3, max_length=50, regex="^fixedquery$"`. -/
def postsQC : StrConstraints := ⟨some 3, some 50, some "^fixedquery$"⟩

/-- Constraints declared on `item_id` at GET `/items1/\x7bitem_id\x7d`
(line 166): `gt=1`. -/
def items1PC : NumConstraints := ⟨some 1, none, none, none⟩

/-- Constraints declared on `item_id` at PUT `/items/\x7bitem_id\x7d`
(line 186): `ge=0, le=1000`. -/
def putItemsPC : NumConstraints := ⟨none, some 0, none, some 1000⟩

/-- GET `/items/` end to end: framework validation of `q` against the
declared constraints, then the handler body of `read_items` (line 10). -/
def getItemsRoute (q : Option String) : Except Nat Json :=
  (validateOptQuery itemsQC q).map read_items

/-- GET `/items2/` end to end: `q` is required there, so an absent `q`
is itself a validation failure. -/
def getItems2Route (q : Option String) : Except Nat Json :=
  match q with
  | none => Except.error 422
  | some s =>
      if validateStr items2QC s then Except.ok (read_items2 s)
      else Except.error 422

/-- GET `/readers/` end to end. -/
def getReadersRoute (q : Option String) : Except Nat Json :=
  (validateOptQuery readersQC q).map read_readers

/-- GET `/posts/` end to end. -/
def getPostsRoute (q : Option String) : Except Nat Json :=
  (validateOptQuery postsQC q).map read_posts

/-- GET `/items1/\x7bitem_id\x7d` end to end: numeric path validation
(`gt=1`), then the handler body of `read_items1`. -/
def getItems1Route (item_id : Int) (q : String) : Except Nat Json :=
  if validateNum items1PC item_id then Except.ok (read_items1 item_id q)
  else Except.error 422

/-- PUT `/items/\x7bitem_id\x7d` end to end: numeric path validation
(`ge=0, le=1000`), then the handler body of `update_item` (line 184). -/
def putItemsRoute (item_id : Int) (q : Option String) (item : Option Item) :
    Except Nat Json :=
  if validateNum putItemsPC item_id then
    Except.ok (update_item item_id q item)
  else Except.error 422

/-- GET `/items/\x7bitem_id\x7d` end to end: no constraint beyond the
`int` type is declared on `item_id` there (line 132), and `q` has only
an alias, so the handler body of `read_item` always runs. -/
def getItemRoute (item_id : Int) (q : Option String) : Except Nat Json :=
  Except.ok (read_item item_id q)

/-- HTTP methods used by the application. -/
inductive Method where
  | get : Method
  | put : Method
deriving DecidableEq

/-- One segment of a route path template: a literal, or a parameter
capture that matches any non-empty segment. -/
inductive Seg where
  | lit : String → Seg
  | param : String → Seg

/-- A template segment against a concrete request path segment. -/
def segMatch : Seg → String → Bool
  | Seg.lit t, s => decide (t = s)
  | Seg.param _, s => decide (s ≠ "")

/-- A template against a concrete request path, segment by segment
(a request path `/items/5` is embedded as `["items", "5"]`, and the
trailing slash of `/items/` as a trailing empty segment). -/
def pathMatch : List Seg → List String → Bool
  | [], [] => true
  | t :: ts, s :: ss => segMatch t s && pathMatch ts ss
  | _, _ => false

/-- A registered route: method, path template, and a label naming the
handler definition together with its line in `src/main.py`. -/
structure Route where
  method : Method
  template : List Seg
  handler : String

/-- Template of `/items/`. -/
def tmplItems : List Seg := [Seg.lit "items", Seg.lit ""]

/-- Template of `/items2/`. -/
def tmplItems2 : List Seg := [Seg.lit "items2", Seg.lit ""]

/-- Template of `/items3/`. -/
def tmplItems3 : List Seg := [Seg.lit "items3", Seg.lit ""]

/-- Template of `/items_list/`. -/
def tmplItemsList : List Seg := [Seg.lit "items_list", Seg.lit ""]

/-- Template of `/readers/`. -/
def tmplReaders : List Seg := [Seg.lit "readers", Seg.lit ""]

/-- Template of `/readers_alias/`. -/
def tmplReadersAlias : List Seg := [Seg.lit "readers_alias", Seg.lit ""]

/-- Template of `/posts/`. -/
def tmplPosts : List Seg := [Seg.lit "posts", Seg.lit ""]

/-- Template of `/items/\x7bitem_id\x7d`. -/
def tmplItemId : List Seg := [Seg.lit "items", Seg.param "item_id"]

/-- Template of `/items1/\x7bitem_id\x7d`. -/
def tmplItems1 : List Seg := [Seg.lit "items1", Seg.param "item_id"]

/-- Template of `/singular/\x7bitem_id\x7d`. -/
def tmplSingular : List Seg := [Seg.lit "singular", Seg.param "item_id"]

/-- The application route table, in registration (source) order. -/
def routes : List Route :=
  [⟨Method.get, tmplItems, "read_items@L9"⟩,
   ⟨Method.get, tmplItems2, "read_items2@L17"⟩,
   ⟨Method.get, tmplItems3, "read_items3@L25"⟩,
   ⟨Method.get, tmplItems, "read_items@L33"⟩,
   ⟨Method.get, tmplItemsList, "read_items@L44"⟩,
   ⟨Method.get, tmplReaders, "read_readers@L52"⟩,
   ⟨Method.get, tmplReadersAlias, "read_readers_alias@L62"⟩,
   ⟨Method.get, tmplPosts, "read_posts@L77"⟩,
   ⟨Method.get, tmplItemId, "read_item@L131"⟩,
   ⟨Method.get, tmplItemId, "read_items@L149"⟩,
   ⟨Method.get, tmplItems1, "read_items1@L165"⟩,
   ⟨Method.put, tmplItemId, "update_item@L183"⟩,
   ⟨Method.put, tmplItemId, "update_item@L202"⟩,
   ⟨Method.get, tmplSingular, "singular_value@L216"⟩]

/-- First route whose method and template match the request. -/
def firstMatch : List Route → Method → List String → Option String
  | [], _, _ => none
  | r :: rs, m, p =>
      if r.method = m ∧ pathMatch r.template p = true then some r.handler
      else firstMatch rs m p

/-- Modelled from the spec: the framework request-dispatch loop, which
the spec places entirely inside the framework and out of the repository.
Routes are tried in registration order and the first whose method and
path template match handles the request; the result is the label of the
chosen handler. -/
def dispatch (m : Method) (p : List String) : Option String :=
  firstMatch routes m p

/-- A request to one of the application routes, carrying the parameter
values the framework would pass to the corresponding handler. -/
inductive Request where
  | itemsReq : Option String → Request
  | items2Req : Option String → Request
  | itemsListReq : Option (List String) → Request
  | readersReq : Option String → Request
  | postsReq : Option String → Request
  | itemReq : Int → Option String → Request
  | items1Req : Int → String → Request
  | putItemsReq : Int → Option String → Option Item → Request
  | singularReq : Int → Item → User → Int → Request
deriving DecidableEq

/-- The response a request produces: validation then the handler body.
Every handler is a function of the request parameters alone, as in the
source, where no handler reads or writes anything outside its own local
variables. -/
def handle : Request → Except Nat Json
  | Request.itemsReq q => getItemsRoute q
  | Request.items2Req q => getItems2Route q
  | Request.itemsListReq q => Except.ok (read_items_list q)
  | Request.readersReq q => getReadersRoute q
  | Request.postsReq q => getPostsRoute q
  | Request.itemReq item_id q => getItemRoute item_id q
  | Request.items1Req item_id q => getItems1Route item_id q
  | Request.putItemsReq item_id q item => putItemsRoute item_id q item
  | Request.singularReq item_id item user foo =>
      Except.ok (singular_value item_id item user foo)

/-- A whole request stream served in order: each request is handled
independently, there being no state carried from one to the next. -/
def serve (rs : List Request) : List (Except Nat Json) :=
  rs.map handle

/-- Serialization of an optional string is injective. -/
theorem optStrJson_inj (a b : Option String) :
    optStrJson a = optStrJson b ↔ a = b := by
  cases a <;> cases b <;> simp [optStrJson]

/-- Serialization of an optional number is injective. -/
theorem optRatJson_inj (a b : Option Rat) :
    optRatJson a = optRatJson b ↔ a = b := by
  cases a <;> cases b <;> simp [optRatJson]

/-- C1: the claim says every handler returns the results mapping it
built, naming `read_item` in particular; but `read_item` (line 137)
returns `q` itself. At the request GET `/items/5` with `q` absent the
response is JSON null, and with `q` supplied it is the bare string, not
the `\x7b"item_id": ...\x7d` mapping the handler built. -/
theorem read_item_returns_q_not_results :
    read_item 5 none = Json.null ∧
    read_item 5 (some "abc") = Json.str "abc" ∧
    Json.null ≠ Json.obj [("item_id", Json.int 5)] ∧
    Json.str "abc" ≠
      Json.obj [("item_id", Json.int 5), ("q", Json.str "abc")] := by
  refine ⟨rfl, rfl, fun h => Json.noConfusion h, fun h => Json.noConfusion h⟩

/-- C5: `Item` construction succeeds exactly when `name` and `price`
are supplied; omitted `description` and `tax` default to `None`. -/
theorem item_construction_requirements :
    (∀ n d p t, Item.construct (some n) d (some p) t = some ⟨n, d, p, t⟩) ∧
    (∀ d p t, Item.construct none d p t = none) ∧
    (∀ n d t, Item.construct (some n) d none t = none) ∧
    (∀ n p, Item.construct (some n) none (some p) none =
      some ⟨n, none, p, none⟩) := by
  refine ⟨fun n d p t => rfl, fun d p t => ?_, fun n d t => rfl,
    fun n p => rfl⟩
  cases p <;> rfl

/-- C6: `User` construction succeeds exactly when `username` is
supplied; an omitted `full_name` defaults to `None`. -/
theorem user_construction_requirements :
    (∀ n f, User.construct (some n) f = some ⟨n, f⟩) ∧
    (∀ f, User.construct none f = none) ∧
    (∀ n, User.construct (some n) none = some ⟨n, none⟩) :=
  ⟨fun _ _ => rfl, fun _ => rfl, fun _ => rfl⟩

/-- C2, counterexample: `update_item` (line 184) receives a supplied
empty-string `q` (no length constraint is declared on `q` there), yet
the returned mapping does not contain the key `q`, because `if q:` is
Python truthiness, not a `None` test; and the `/items_list/` handler
returns `\x7b"q": null\x7d` when `q` was not supplied, which is not the
canned dictionary without the key. -/
theorem update_item_drops_empty_string_q :
    update_item 1 (some "") none = Json.obj [("item_id", Json.int 1)] ∧
    jsonLookup (update_item 1 (some "") none) "q" = none ∧
    read_items_list none = Json.obj [("q", Json.null)] :=
  ⟨rfl, rfl, rfl⟩

/-- C2, as amended: for the handlers built on the `if q:` pattern
(`read_items` line 10, `update_item` line 184), the returned mapping
contains the optional parameter under its fixed key exactly when it was
supplied with a truthy (non-empty) value; when it was absent or empty
the mapping is exactly the canned dictionary. The `/items_list/`
handler instead always contains the key `q`, holding JSON null when `q`
was absent. -/
theorem optional_param_key_presence :
    (∀ item_id q s, q = some s → s ≠ "" →
      jsonLookup (update_item item_id q none) "q" = some (Json.str s)) ∧
    (∀ item_id q, q = none ∨ q = some "" →
      update_item item_id q none = Json.obj [("item_id", Json.int item_id)]) ∧
    (∀ q s, q = some s → s ≠ "" →
      jsonLookup (read_items q) "q" = some (Json.str s)) ∧
    (∀ q, q = none ∨ q = some "" →
      read_items q = Json.obj [("items", sampleItems)]) ∧
    (∀ xs, jsonLookup (read_items_list (some xs)) "q" =
      some (Json.arr (xs.map Json.str))) ∧
    jsonLookup (read_items_list none) "q" = some Json.null := by
  refine ⟨?_, ?_, ?_, ?_, fun xs => rfl, rfl⟩
  · intro item_id q s hq hs
    subst hq
    simp only [update_item, updateIfTruthy]
    rw [if_neg hs]
    rfl
  · intro item_id q hq
    rcases hq with rfl | rfl <;> rfl
  · intro q s hq hs
    subst hq
    simp only [read_items, updateIfTruthy]
    rw [if_neg hs]
    rfl
  · intro q hq
    rcases hq with rfl | rfl <;> rfl

/-- Witness for the amended C2 at concrete inputs. -/
theorem optional_param_key_presence_witness :
    jsonLookup (update_item 7 (some "abc") none) "q" = some (Json.str "abc") ∧
    update_item 7 none none = Json.obj [("item_id", Json.int 7)] ∧
    jsonLookup (read_items (some "abc")) "q" = some (Json.str "abc") ∧
    read_items (some "") = Json.obj [("items", sampleItems)] :=
  ⟨optional_param_key_presence.1 7 (some "abc") "abc" rfl (by decide),
   optional_param_key_presence.2.1 7 none (Or.inl rfl),
   optional_param_key_presence.2.2.1 (some "abc") "abc" rfl (by decide),
   optional_param_key_presence.2.2.2.1 (some "") (Or.inr rfl)⟩

/-- C4: on every route declaring `min_length=3` on `q` (GET `/items/`,
GET `/items2/`, GET `/readers/`), a supplied `q` shorter than 3
characters is rejected with a 422 response; the route function returns
the error without ever applying the handler body. -/
theorem short_q_rejected_422 (s : String) (h : s.length < 3) :
    getItemsRoute (some s) = Except.error 422 ∧
    getItems2Route (some s) = Except.error 422 ∧
    getReadersRoute (some s) = Except.error 422 := by
  have hm : decide (3 ≤ s.length) = false := by
    simp only [decide_eq_false_iff_not]
    omega
  refine ⟨?_, ?_, ?_⟩ <;>
    simp [getItemsRoute, getItems2Route, getReadersRoute, validateOptQuery,
      validateStr, itemsQC, items2QC, readersQC, hm, Except.map]

/-- Witness for C4 at the concrete two-character query `ab`. -/
theorem short_q_rejected_422_witness :
    getItemsRoute (some "ab") = Except.error 422 ∧
    getItems2Route (some "ab") = Except.error 422 ∧
    getReadersRoute (some "ab") = Except.error 422 :=
  short_q_rejected_422 "ab" (by decide)

/-- C8: the numeric path constraints are enforced before the handler
runs: GET `/items1/\x7bitem_id\x7d` reaches `read_items1` only with
`item_id > 1`, PUT `/items/\x7bitem_id\x7d` reaches `update_item` only
with `0 <= item_id <= 1000`, and a violating `item_id` produces the
automatic 422 error with no handler invocation. -/
theorem numeric_path_constraints_enforced :
    (∀ v q r, getItems1Route v q = Except.ok r →
      1 < v ∧ r = read_items1 v q) ∧
    (∀ v q, ¬ 1 < v → getItems1Route v q = Except.error 422) ∧
    (∀ v q item r, putItemsRoute v q item = Except.ok r →
      (0 ≤ v ∧ v ≤ 1000) ∧ r = update_item v q item) ∧
    (∀ v q item, ¬ (0 ≤ v ∧ v ≤ 1000) →
      putItemsRoute v q item = Except.error 422) := by
  refine ⟨?_, ?_, ?_, ?_⟩
  · intro v q r h
    by_cases hv : 1 < v
    · refine ⟨hv, ?_⟩
      simp [getItems1Route, validateNum, items1PC, hv] at h
      exact h.symm
    · simp [getItems1Route, validateNum, items1PC, hv] at h
  · intro v q hv
    simp [getItems1Route, validateNum, items1PC, hv]
  · intro v q item r h
    by_cases h0 : 0 ≤ v
    · by_cases h1 : v ≤ 1000
      · refine ⟨⟨h0, h1⟩, ?_⟩
        simp [putItemsRoute, validateNum, putItemsPC, h0, h1] at h
        exact h.symm
      · simp [putItemsRoute, validateNum, putItemsPC, h0, h1] at h
    · simp [putItemsRoute, validateNum, putItemsPC, h0] at h
  · intro v q item hv
    by_cases h0 : 0 ≤ v
    · by_cases h1 : v ≤ 1000
      · exact absurd ⟨h0, h1⟩ hv
      · simp [putItemsRoute, validateNum, putItemsPC, h1]
    · simp [putItemsRoute, validateNum, putItemsPC, h0]

/-- Witness for C8 at concrete path parameters. -/
theorem numeric_path_constraints_enforced_witness :
    (1 < (5 : Int) ∧ read_items1 5 "abc" = read_items1 5 "abc") ∧
    getItems1Route 0 "abc" = Except.error 422 ∧
    ((0 ≤ (7 : Int) ∧ (7 : Int) ≤ 1000) ∧
      update_item 7 none none = update_item 7 none none) ∧
    putItemsRoute (-1) none none = Except.error 422 :=
  ⟨numeric_path_constraints_enforced.1 5 "abc" _ rfl,
   numeric_path_constraints_enforced.2.1 0 "abc" (by decide),
   numeric_path_constraints_enforced.2.2.1 7 none none _ rfl,
   numeric_path_constraints_enforced.2.2.2 (-1) none none (by decide)⟩

/-- A string matches the anchored literal pattern `^fixedquery$` exactly
when it is the string `fixedquery`. -/
theorem regexFullMatch_fixedquery (s : String) :
    regexFullMatch "^fixedquery$" s = true ↔ s = "fixedquery" := by
  unfold regexFullMatch
  rw [decide_eq_true_iff]
  constructor
  · intro h
    apply String.ext
    have h2 : ('^' :: ("fixedquery".data ++ ['$'])) =
        ('^' :: (s.data ++ ['$'])) := by
      rw [← h]
      decide
    injection h2 with _ h3
    exact (List.append_cancel_right h3).symm
  · intro h
    subst h
    rfl

/-- C9: on GET `/items/` and GET `/posts/`, where `q` declares the
regex `^fixedquery$`, every supplied `q` that reaches the handler body
equals `fixedquery`; any other supplied `q` is rejected with the
framework 422 validation failure. -/
theorem regex_constraint_forces_fixedquery :
    (∀ s r, getItemsRoute (some s) = Except.ok r → s = "fixedquery") ∧
    (∀ s, s ≠ "fixedquery" → getItemsRoute (some s) = Except.error 422) ∧
    (∀ s r, getPostsRoute (some s) = Except.ok r → s = "fixedquery") ∧
    (∀ s, s ≠ "fixedquery" → getPostsRoute (some s) = Except.error 422) := by
  have key : ∀ s : String, s ≠ "fixedquery" →
      regexFullMatch "^fixedquery$" s = false := by
    intro s hs
    cases hb : regexFullMatch "^fixedquery$" s
    · rfl
    · exact absurd ((regexFullMatch_fixedquery s).mp hb) hs
  refine ⟨?_, ?_, ?_, ?_⟩
  · intro s r h
    by_cases hf : s = "fixedquery"
    · exact hf
    · simp [getItemsRoute, validateOptQuery, validateStr, itemsQC,
        key s hf, Except.map] at h
  · intro s hf
    simp [getItemsRoute, validateOptQuery, validateStr, itemsQC, key s hf,
      Except.map]
  · intro s r h
    by_cases hf : s = "fixedquery"
    · exact hf
    · simp [getPostsRoute, validateOptQuery, validateStr, postsQC,
        key s hf, Except.map] at h
  · intro s hf
    simp [getPostsRoute, validateOptQuery, validateStr, postsQC, key s hf,
      Except.map]

/-- Witness for C9 at concrete queries. -/
theorem regex_constraint_forces_fixedquery_witness :
    ("fixedquery" : String) = "fixedquery" ∧
    getItemsRoute (some "short") = Except.error 422 ∧
    getPostsRoute (some "short") = Except.error 422 :=
  ⟨regex_constraint_forces_fixedquery.1 "fixedquery"
      (read_items (some "fixedquery")) rfl,
   regex_constraint_forces_fixedquery.2.1 "short" (by decide),
   regex_constraint_forces_fixedquery.2.2.2 "short" (by decide)⟩

/-- C7: no operation in the program alters a constructed `Item` or
`User`: every handler that receives one serializes exactly the record
it was given, field for field (the serializations are injective, so
equal serializations mean equal field values), and no handler performs
any field assignment. -/
theorem records_immutable_after_construction :
    (∀ item_id q it, jsonLookup (update_item item_id q (some it)) "item" =
      some (itemJson it)) ∧
    (∀ item_id it u, update_item_v2 item_id it u =
      Json.obj [("item_id", Json.int item_id), ("item", itemJson it),
                ("user", userJson u)]) ∧
    (∀ item_id it u foo, singular_value item_id it u foo =
      Json.obj [("item_id", Json.int item_id), ("item", itemJson it),
                ("user", userJson u), ("foo", Json.int foo)]) ∧
    (∀ a b : Item, itemJson a = itemJson b ↔ a = b) ∧
    (∀ a b : User, userJson a = userJson b ↔ a = b) := by
  refine ⟨?_, fun item_id it u => rfl, fun item_id it u foo => rfl, ?_, ?_⟩
  · intro item_id q it
    match q with
    | none => rfl
    | some s =>
      by_cases hs : s = ""
      · subst hs
        rfl
      · simp only [update_item, updateIfTruthy]
        rw [if_neg hs]
        rfl
  · intro a b
    cases a
    cases b
    simp [itemJson, optStrJson_inj, optRatJson_inj]
  · intro a b
    cases a
    cases b
    simp [userJson, optStrJson_inj]

/-- C10: every handler is stateless and deterministic. The response to
a request in a served stream is the same whatever requests come before
or after it, and two invocations with equal parameter values produce
equal responses. -/
theorem handlers_stateless_deterministic :
    (∀ pre post r,
      (serve (pre ++ r :: post)).get? pre.length = some (handle r)) ∧
    (∀ r₁ r₂ : Request, r₁ = r₂ → handle r₁ = handle r₂) := by
  constructor
  · intro pre post r
    induction pre with
    | nil => rfl
    | cons a as ih => exact ih
  · intro r₁ r₂ h
    rw [h]

/-- Witness for C10 on a concrete request stream. -/
theorem handlers_stateless_deterministic_witness :
    (serve [Request.itemsReq none, Request.putItemsReq 1 none none]).get? 1 =
      some (handle (Request.putItemsReq 1 none none)) ∧
    handle (Request.itemsReq none) = handle (Request.itemsReq none) :=
  ⟨handlers_stateless_deterministic.1 [Request.itemsReq none] []
      (Request.putItemsReq 1 none none),
   handlers_stateless_deterministic.2 (Request.itemsReq none)
      (Request.itemsReq none) rfl⟩

/-- C3: with two registrations of GET `/items/` (lines 9 and 33) and
two of PUT `/items/\x7bitem_id\x7d` (lines 183 and 202), dispatch in
registration order sends every request for such a method and path to
the first-registered handler, and no request at all reaches the later
duplicate definitions (the duplicate GET `/items/\x7bitem_id\x7d`
registration of line 149 included). -/
theorem duplicate_routes_first_wins :
    dispatch Method.get ["items", ""] = some "read_items@L9" ∧
    (∀ p h, dispatch Method.put p = some h → h = "update_item@L183") ∧
    (∀ m p h, dispatch m p = some h →
      h ≠ "read_items@L33" ∧ h ≠ "update_item@L202" ∧
      h ≠ "read_items@L149") := by
  refine ⟨rfl, ?_, ?_⟩
  · intro p hres h
    by_cases hm : pathMatch tmplItemId p = true
    · simp [dispatch, routes, firstMatch, hm] at h
      exact h.symm
    · simp [dispatch, routes, firstMatch, hm] at h
  · intro m p hres h
    cases m with
    | put =>
      by_cases hm : pathMatch tmplItemId p = true
      · simp [dispatch, routes, firstMatch, hm] at h
        subst h
        exact ⟨by decide, by decide, by decide⟩
      · simp [dispatch, routes, firstMatch, hm] at h
    | get =>
      by_cases h1 : pathMatch tmplItems p = true
      · simp [dispatch, routes, firstMatch, h1] at h
        subst h
        exact ⟨by decide, by decide, by decide⟩
      · by_cases h2 : pathMatch tmplItems2 p = true
        · simp [dispatch, routes, firstMatch, h1, h2] at h
          subst h
          exact ⟨by decide, by decide, by decide⟩
        · by_cases h3 : pathMatch tmplItems3 p = true
          · simp [dispatch, routes, firstMatch, h1, h2, h3] at h
            subst h
            exact ⟨by decide, by decide, by decide⟩
          · by_cases h4 : pathMatch tmplItemsList p = true
            · simp [dispatch, routes, firstMatch, h1, h2, h3, h4] at h
              subst h
              exact ⟨by decide, by decide, by decide⟩
            · by_cases h5 : pathMatch tmplReaders p = true
              · simp [dispatch, routes, firstMatch, h1, h2, h3, h4, h5] at h
                subst h
                exact ⟨by decide, by decide, by decide⟩
              · by_cases h6 : pathMatch tmplReadersAlias p = true
                · simp [dispatch, routes, firstMatch,
                    h1, h2, h3, h4, h5, h6] at h
                  subst h
                  exact ⟨by decide, by decide, by decide⟩
                · by_cases h7 : pathMatch tmplPosts p = true
                  · simp [dispatch, routes, firstMatch,
                      h1, h2, h3, h4, h5, h6, h7] at h
                    subst h
                    exact ⟨by decide, by decide, by decide⟩
                  · by_cases h8 : pathMatch tmplItemId p = true
                    · simp [dispatch, routes, firstMatch,
                        h1, h2, h3, h4, h5, h6, h7, h8] at h
                      subst h
                      exact ⟨by decide, by decide, by decide⟩
                    · by_cases h9 : pathMatch tmplItems1 p = true
                      · simp [dispatch, routes, firstMatch,
                          h1, h2, h3, h4, h5, h6, h7, h8, h9] at h
                        subst h
                        exact ⟨by decide, by decide, by decide⟩
                      · by_cases h10 : pathMatch tmplSingular p = true
                        · simp [dispatch, routes, firstMatch,
                            h1, h2, h3, h4, h5, h6, h7, h8, h9, h10] at h
                          subst h
                          exact ⟨by decide, by decide, by decide⟩
                        · simp [dispatch, routes, firstMatch,
                            h1, h2, h3, h4, h5, h6, h7, h8, h9, h10] at h

/-- Witness for C3 at concrete requests: a PUT to `/items/7` and a GET
to `/items/`. -/
theorem duplicate_routes_first_wins_witness :
    ("update_item@L183" : String) = "update_item@L183" ∧
    (("read_items@L9" : String) ≠ "read_items@L33" ∧
     ("read_items@L9" : String) ≠ "update_item@L202" ∧
     ("read_items@L9" : String) ≠ "read_items@L149") :=
  ⟨duplicate_routes_first_wins.2.1 ["items", "7"] "update_item@L183" rfl,
   duplicate_routes_first_wins.2.2 Method.get ["items", ""] "read_items@L9"
     rfl⟩
